import Mathlib

/-!
Verification of the Bitrix24 Telegram bot core (bot2.py): a shallow
embedding of the webhook parser, the CRM client's request-parameter
builders, the task normalization and statistics fold, log masking,
deal summation and the terminal conversation handlers, with theorems
checking the natural-language specification against the code.
-/

/-- Shallow embedding of the Python/JSON values that flow through the bot:
strings, ints, floats (as rationals), booleans, None, dicts (ordered
association lists, as in Python) and lists. -/
inductive PyVal where
  | str : String → PyVal
  | int : Int → PyVal
  | float : Rat → PyVal
  | bool : Bool → PyVal
  | none : PyVal
  | dict : List (String × PyVal) → PyVal
  | list : List PyVal → PyVal

/-- Python `d.get(k)`: first binding of the key in the (ordered) dict. -/
def dget : List (String × PyVal) → String → Option PyVal
  | [], _ => Option.none
  | (k, v) :: rest, x => if k = x then some v else dget rest x

/-- Python `d[k] = v`: replace the value in place if the key is present
(keeping its position), otherwise append the binding at the end. -/
def dset : List (String × PyVal) → String → PyVal → List (String × PyVal)
  | [], x, w => [(x, w)]
  | (k, v) :: rest, x, w => if k = x then (k, w) :: rest else (k, v) :: dset rest x w

/-- Python `d.update(e)`: `d[k] = v` for each binding of `e` in order. -/
def dupdate (d e : List (String × PyVal)) : List (String × PyVal) :=
  e.foldl (fun acc kv => dset acc kv.1 kv.2) d

/-- Python truthiness of an embedded value. -/
def pyTruthy : PyVal → Bool
  | .str s => decide (s ≠ "")
  | .int n => decide (n ≠ 0)
  | .float q => decide (q ≠ 0)
  | .bool b => b
  | .none => false
  | .dict d => !d.isEmpty
  | .list l => !l.isEmpty

/-- Whether `needle` occurs as a substring of `hay` (Python `in` on str). -/
def occursIn (needle hay : String) : Bool :=
  hay.toList.tails.any (fun t => needle.toList.isPrefixOf t)

/-- Python `s.strip()`: drop leading and trailing whitespace. -/
def pyStrip (s : String) : String :=
  String.mk (((s.toList.dropWhile Char.isWhitespace).reverse.dropWhile
    Char.isWhitespace).reverse)

/-- Python slice `s[:n]`. -/
def strTake (s : String) (n : Nat) : String :=
  String.mk (s.toList.take n)

/-- Python slice `s[n:]`. -/
def strDrop (s : String) (n : Nat) : String :=
  String.mk (s.toList.drop n)

/-- Python `s.lower()` (ASCII case folding). -/
def lowerStr (s : String) : String :=
  String.mk (s.toList.map Char.toLower)

/-- Worker for `splitOnChar`, accumulating the current segment. -/
def splitOnCharAux (c : Char) : List Char → List Char → List String
  | [], acc => [String.mk acc.reverse]
  | x :: rest, acc =>
    if x = c then String.mk acc.reverse :: splitOnCharAux c rest []
    else splitOnCharAux c rest (x :: acc)

/-- Python `s.split(c)` for a one-character separator: the empty string
splits to `[""]`. -/
def splitOnChar (c : Char) (s : String) : List String :=
  splitOnCharAux c s.toList []

/-- Numeric value of a decimal digit string. -/
def digitsToNat (cs : List Char) : Nat :=
  cs.foldl (fun acc c => acc * 10 + (c.toNat - Char.toNat '0')) 0

/-- Python `int(s)` on a string: strip whitespace, optional sign, digits. -/
def pyStrToInt (s : String) : Option Int :=
  let cs := (pyStrip s).toList
  let core : List Char → Option Nat := fun ds =>
    if ds.isEmpty then Option.none
    else if ds.all Char.isDigit then some (digitsToNat ds) else Option.none
  match cs with
  | '+' :: rest => (core rest).map (fun n => (n : Int))
  | '-' :: rest => (core rest).map (fun n => -(n : Int))
  | _ => (core cs).map (fun n => (n : Int))

/-- Python `float(s)` on a string (decimal forms, no exponent): strip
whitespace, optional sign, digits with an optional fractional part. -/
def pyStrToFloat (s : String) : Option Rat :=
  let cs := (pyStrip s).toList
  let parseBody : List Char → Option Rat := fun body =>
    let ip := body.takeWhile Char.isDigit
    let rest := body.dropWhile Char.isDigit
    match rest with
    | [] => if ip.isEmpty then Option.none else some ((digitsToNat ip : Int) : Rat)
    | '.' :: fp =>
      if fp.all Char.isDigit then
        if ip.isEmpty && fp.isEmpty then Option.none
        else some (((digitsToNat ip : Int) : Rat) +
          ((digitsToNat fp : Int) : Rat) / ((10 ^ fp.length : Nat) : Rat))
      else Option.none
    | _ => Option.none
  match cs with
  | '+' :: rest => parseBody rest
  | '-' :: rest => (parseBody rest).map (fun q => -q)
  | _ => parseBody cs

/-- Python `int(x)` on an embedded value: strings parse, numbers truncate
toward zero, bools map to 0/1; `None`, dicts and lists raise. -/
def pyIntOf : PyVal → Option Int
  | .str s => pyStrToInt s
  | .int n => some n
  | .float q => some (Int.tdiv q.num (q.den : Int))
  | .bool b => some (if b then 1 else 0)
  | _ => Option.none

/-- A point in time with one-second resolution, as compared by
`datetime` objects (lexicographic on the six components). -/
structure Pdt where
  y : Nat
  m : Nat
  d : Nat
  hh : Nat
  mi : Nat
  ss : Nat
deriving DecidableEq

/-- Lexicographic strict order on datetimes, Python `dt1 < dt2`. -/
def pdtLt (a b : Pdt) : Bool :=
  decide (a.y < b.y) || (decide (a.y = b.y) &&
    (decide (a.m < b.m) || (decide (a.m = b.m) &&
      (decide (a.d < b.d) || (decide (a.d = b.d) &&
        (decide (a.hh < b.hh) || (decide (a.hh = b.hh) &&
          (decide (a.mi < b.mi) || (decide (a.mi = b.mi) &&
            decide (a.ss < b.ss))))))))))

/-- Gregorian leap-year rule, as validated by `datetime`. -/
def isLeapYear (y : Nat) : Bool :=
  (decide (y % 4 = 0) && decide (y % 100 ≠ 0)) || decide (y % 400 = 0)

/-- Number of days in a month, as validated by `datetime`. -/
def daysInMonth (y m : Nat) : Nat :=
  if m = 2 then (if isLeapYear y then 29 else 28)
  else if m = 4 ∨ m = 6 ∨ m = 9 ∨ m = 11 then 30
  else 31

/-- Greedily take up to `n` leading digits from a character list. -/
def takeDigits : Nat → List Char → (List Char × List Char)
  | 0, cs => ([], cs)
  | _, [] => ([], [])
  | n + 1, c :: rest =>
    if c.isDigit then
      let (ds, r) := takeDigits n rest
      (c :: ds, r)
    else ([], c :: rest)

/-- Python `datetime.strptime(s, "%Y-%m-%d")`: up to four year digits,
a dash, up to two month digits, a dash, up to two day digits, nothing
else; the components must form a valid calendar date. -/
def strptimeYmd (s : String) : Option Pdt :=
  let cs := s.toList
  let (yd, r1) := takeDigits 4 cs
  if yd.isEmpty then Option.none else
  match r1 with
  | '-' :: r2 =>
    let (md, r3) := takeDigits 2 r2
    if md.isEmpty then Option.none else
    match r3 with
    | '-' :: r4 =>
      let (dd, r5) := takeDigits 2 r4
      if dd.isEmpty then Option.none else
      if !r5.isEmpty then Option.none else
      let y := digitsToNat yd
      let m := digitsToNat md
      let d := digitsToNat dd
      if 1 ≤ y ∧ 1 ≤ m ∧ m ≤ 12 ∧ 1 ≤ d ∧ d ≤ daysInMonth y m then
        some ⟨y, m, d, 0, 0, 0⟩
      else Option.none
    | _ => Option.none
  | _ => Option.none

/-! ## Webhook parser (WebhookParser, bot2.py lines 115-164)

The Python code applies `urllib.parse.urlparse` to the trimmed URL and
then works on the components; the embedding starts from those components
(`scheme`, `netloc`, `path`), with `urlparse` as the library boundary. -/

/-- Components of a URL as produced by `urllib.parse.urlparse`. -/
structure UrlParts where
  scheme : String
  netloc : String
  path : String
deriving DecidableEq

/-- Drop leading characters equal to `c`. -/
def dropLeadChar (c : Char) (s : String) : String :=
  String.mk (s.toList.dropWhile (fun x => x = c))

/-- Drop trailing characters equal to `c` (Python `s.rstrip(c)`). -/
def dropTrailChar (c : Char) (s : String) : String :=
  String.mk ((s.toList.reverse.dropWhile (fun x => x = c)).reverse)

/-- Python `s.strip(c)` for a single strip character. -/
def stripChar (c : Char) (s : String) : String :=
  dropTrailChar c (dropLeadChar c s)

/-- The path segments `parsed_url.path.strip('/').split('/')` of the
webhook parser (the earlier `rstrip('/')` of the full URL only removes
trailing slashes, which `strip('/')` removes again). -/
def webhookPathParts (u : UrlParts) : List String :=
  splitOnChar '/' (stripChar '/' u.path)

/-- Result record of `WebhookParser.parse_webhook_url`. -/
structure WebhookInfo where
  full_webhook_url : String
  portal_url : String
  user_id : String
  webhook_token : String
deriving DecidableEq

/-- The error message raised for a malformed webhook URL
(`ValueError`, re-wrapped by the enclosing handler). -/
def malformedWebhookMsg : String :=
  "Ошибка парсинга вебхука: Некорректный формат вебхука"

/-- Embedding of `WebhookParser.parse_webhook_url`: requires at least
three path segments with the first literally `rest`; extra trailing
segments are ignored. The host is not inspected here. -/
def parse_webhook_url (u : UrlParts) : Except String WebhookInfo :=
  match webhookPathParts u with
  | p0 :: p1 :: p2 :: _ =>
    if p0 = "rest" then
      Except.ok
        { full_webhook_url := u.scheme ++ "://" ++ u.netloc ++ dropTrailChar '/' u.path
          portal_url := u.scheme ++ "://" ++ u.netloc
          user_id := p1
          webhook_token := p2 }
    else Except.error malformedWebhookMsg
  | _ => Except.error malformedWebhookMsg

/-- Embedding of `WebhookParser.validate_webhook_url`: wraps `parse`,
returns false on failure, and additionally requires every field to be
non-empty and the portal URL to contain the vendor marker. -/
def validate_webhook_url (u : UrlParts) : Bool :=
  match parse_webhook_url u with
  | Except.error _ => false
  | Except.ok r =>
    decide (r.full_webhook_url ≠ "") && decide (r.portal_url ≠ "") &&
    decide (r.user_id ≠ "") && decide (r.webhook_token ≠ "") &&
    occursIn ".bitrix24." r.portal_url

/-! ## Request-parameter builders (BitrixAPIClient, bot2.py lines 290-336, 411-425)

The client's `user_id` comes from the webhook path; it is `None` or a
string, modelled as `Option String`. -/

/-- Truthiness of the client's `user_id` attribute. -/
def uidTruthy : Option String → Bool
  | Option.none => false
  | some s => decide (s ≠ "")

/-- Embedding of the params built by `BitrixAPIClient.get_deals`: the
caller filter (possibly `None`) gets `ASSIGNED_BY_ID` set to the webhook
user id, and is attached under `filter` when non-empty. -/
def get_deals_params (uid : Option String) (caller : Option (List (String × PyVal))) :
    List (String × PyVal) :=
  let fp : Option (List (String × PyVal)) :=
    match uid with
    | some u =>
      if u ≠ "" then some (dset ((caller.getD []).map id) "ASSIGNED_BY_ID" (.str u))
      else caller
    | Option.none => caller
  let params : List (String × PyVal) :=
    match fp with
    | some f => if f.isEmpty then [] else [("filter", .dict f)]
    | Option.none => []
  dset params "select"
    (.list [.str "ID", .str "TITLE", .str "STAGE_ID", .str "OPPORTUNITY",
            .str "ASSIGNED_BY_ID", .str "DATE_CREATE"])

/-- Embedding of the params built by `BitrixAPIClient.get_leads`: same
scope-then-attach shape as `get_deals`, with the leads select list. -/
def get_leads_params (uid : Option String) (caller : Option (List (String × PyVal))) :
    List (String × PyVal) :=
  let fp : Option (List (String × PyVal)) :=
    match uid with
    | some u =>
      if u ≠ "" then some (dset ((caller.getD []).map id) "ASSIGNED_BY_ID" (.str u))
      else caller
    | Option.none => caller
  let params : List (String × PyVal) :=
    match fp with
    | some f => if f.isEmpty then [] else [("filter", .dict f)]
    | Option.none => []
  dset params "select"
    (.list [.str "ID", .str "TITLE", .str "STATUS_ID", .str "SOURCE_ID",
            .str "ASSIGNED_BY_ID", .str "DATE_CREATE"])

/-- The scope value `get_tasks` stores under `RESPONSIBLE_ID`: the
webhook user id as an int when it parses, otherwise the raw string. -/
def taskScopeVal (u : String) : PyVal :=
  match pyStrToInt u with
  | some n => .int n
  | Option.none => .str u

/-- Embedding of the params built by `BitrixAPIClient.get_tasks`: order
and select first, then the scope filter `RESPONSIBLE_ID`, then the
caller filter merged with `dict.update` (caller keys overwrite). -/
def get_tasks_params (uid : Option String) (caller : Option (List (String × PyVal))) :
    List (String × PyVal) :=
  let params : List (String × PyVal) :=
    [("order", .dict [("ID", .str "DESC")]),
     ("select", .list [.str "ID", .str "TITLE", .str "STATUS", .str "DEADLINE",
                       .str "PRIORITY", .str "RESPONSIBLE_ID", .str "CREATED_DATE",
                       .str "DESCRIPTION"])]
  let params :=
    match uid with
    | some u => if u ≠ "" then dset params "filter" (.dict [("RESPONSIBLE_ID", taskScopeVal u)])
                else params
    | Option.none => params
  match caller with
  | some f =>
    if f.isEmpty then params
    else
      let base : List (String × PyVal) :=
        match dget params "filter" with
        | some (.dict b) => b
        | _ => []
      dset params "filter" (.dict (dupdate base f))
  | Option.none => params

/-- The request filter attached to a params dict, when present. -/
def filterOf (params : List (String × PyVal)) : Option (List (String × PyVal)) :=
  match dget params "filter" with
  | some (.dict f) => some f
  | _ => Option.none

/-! ## Task normalization and statistics (bot2.py lines 338-368, 546-635) -/

/-- Embedding of the per-task normalization in `BitrixAPIClient.get_tasks`:
remaps the task sub-API's lowercase field names to the canonical
uppercase names, substituting `None` for missing fields. -/
def normalize_task (t : List (String × PyVal)) : List (String × PyVal) :=
  [("ID", (dget t "id").getD .none),
   ("TITLE", (dget t "title").getD .none),
   ("STATUS", (dget t "status").getD .none),
   ("DEADLINE", (dget t "deadline").getD .none),
   ("PRIORITY", (dget t "priority").getD .none),
   ("RESPONSIBLE_ID", (dget t "responsibleId").getD .none),
   ("CREATED_DATE", (dget t "createdDate").getD .none),
   ("DESCRIPTION", (dget t "description").getD .none)]

/-- The statistics counters of `BitrixAPIClient.get_task_statistics`. -/
structure TaskStats where
  total : Nat
  completed : Nat
  in_progress : Nat
  overdue : Nat
  pending : Nat
  deferred : Nat
  awaiting_control : Nat
  supposedly_completed : Nat
deriving DecidableEq

/-- The zero-initialised statistics dict. -/
def initStats : TaskStats := ⟨0, 0, 0, 0, 0, 0, 0, 0⟩

/-- The status code used by the statistics loop:
`int(task.get('STATUS', '1'))` with 1 on conversion failure. -/
def statusOfTask (t : List (String × PyVal)) : Int :=
  match pyIntOf ((dget t "STATUS").getD (.str "1")) with
  | some n => n
  | Option.none => 1

/-- The overdue test of the statistics loop: it reads the keys
`deadline` and `closedDate` (lowercase, as in the raw sub-API shape),
parses the first ten characters of the deadline as a date, and flags
the task when that date is strictly before `now` and no closed date
is set; any parsing failure leaves the flag false. -/
def isOverdueOfTask (now : Pdt) (t : List (String × PyVal)) : Bool :=
  let closed := (dget t "closedDate").getD .none
  let dl := (dget t "deadline").getD .none
  if pyTruthy dl then
    match dl with
    | .str s =>
      match strptimeYmd (strTake s 10) with
      | some dt => pdtLt dt now && !(pyTruthy closed)
      | Option.none => false
    | _ => false
  else false

/-- One iteration of the classification loop in `get_task_statistics`:
increment `total`, then dispatch on the status code, with unknown codes
falling into `pending`; statuses 3, 6, 4, 1 and the fallback also count
the task in `overdue` when flagged, while an overdue status-2 task goes
to `overdue` instead of `pending`. -/
def classifyTask (now : Pdt) (s : TaskStats) (t : List (String × PyVal)) : TaskStats :=
  let s := { s with total := s.total + 1 }
  let status := statusOfTask t
  let od := isOverdueOfTask now t
  if status = 5 then { s with completed := s.completed + 1 }
  else if status = 3 then
    let s := { s with in_progress := s.in_progress + 1 }
    if od then { s with overdue := s.overdue + 1 } else s
  else if status = 2 then
    if od then { s with overdue := s.overdue + 1 }
    else { s with pending := s.pending + 1 }
  else if status = 6 then
    let s := { s with deferred := s.deferred + 1 }
    if od then { s with overdue := s.overdue + 1 } else s
  else if status = 4 then
    let s := { s with awaiting_control := s.awaiting_control + 1 }
    if od then { s with overdue := s.overdue + 1 } else s
  else if status = 1 then
    let s := { s with pending := s.pending + 1 }
    if od then { s with overdue := s.overdue + 1 } else s
  else
    let s := { s with pending := s.pending + 1 }
    if od then { s with overdue := s.overdue + 1 } else s

/-- Embedding of the counting fold of `BitrixAPIClient.get_task_statistics`
over the task list returned by `get_tasks`. -/
def get_task_statistics (now : Pdt) (tasks : List (List (String × PyVal))) : TaskStats :=
  tasks.foldl (classifyTask now) initStats

/-- Sum of the five status buckets of the statistics. -/
def bucketSum (s : TaskStats) : Nat :=
  s.completed + s.in_progress + s.pending + s.deferred + s.awaiting_control

/-! ## Log masking (BitrixAPIClient._mask_sensitive_data, bot2.py lines 249-280) -/

/-- The sensitive-name set of `_mask_sensitive_data`. -/
def sensitiveFields : List String :=
  ["auth", "token", "password", "secret", "access_token"] ++ ["key"]

/-- Whether a dict name triggers masking: some sensitive name occurs as
a substring of the lowercased name. -/
def isSensitiveName (k : String) : Bool :=
  sensitiveFields.any (fun w => occursIn w (lowerStr k))

/-- The inner `mask_value` helper: strings longer than eight characters
become `first4***last4`; ints, floats and bools (Python `isinstance`
counts bools as ints) pass through; everything else becomes `***`. -/
def mask_value : PyVal → PyVal
  | .str s =>
    if s.length > 8 then .str (strTake s 4 ++ "***" ++ strDrop s (s.length - 4))
    else .str "***"
  | .int n => .int n
  | .float q => .float q
  | .bool b => .bool b
  | _ => .str "***"

mutual

/-- The per-binding masking of the `mask_dict` loop, in the source's
branch order: dict values recurse; list values are masked element-wise;
then, for the remaining values only, a sensitive name forces `***` and
strings longer than twenty characters are truncated to
`first10...last10`; anything else is kept. -/
def mask_entry_value (k : String) : PyVal → PyVal
  | .dict d => .dict (mask_dict d)
  | .list l => .list (mask_items l)
  | v =>
    if isSensitiveName k then .str "***"
    else
      match v with
      | .str s =>
        if s.length > 20 then .str (strTake s 10 ++ "..." ++ strDrop s (s.length - 10))
        else .str s
      | w => w

/-- The `mask_dict` loop: rebuilds the dict binding by binding. -/
def mask_dict : List (String × PyVal) → List (String × PyVal)
  | [] => []
  | (k, v) :: rest => (k, mask_entry_value k v) :: mask_dict rest

/-- The list comprehension inside `mask_dict`: dict elements recurse
through `mask_dict`, every other element goes through `mask_value`. -/
def mask_items : List PyVal → List PyVal
  | [] => []
  | .dict d :: rest => .dict (mask_dict d) :: mask_items rest
  | v :: rest => mask_value v :: mask_items rest

end

/-- Embedding of `BitrixAPIClient._mask_sensitive_data`: a falsy (empty)
params dict is returned as is, otherwise a copy is walked by `mask_dict`. -/
def mask_sensitive_data (d : List (String × PyVal)) : List (String × PyVal) :=
  if d.isEmpty then d else mask_dict d

/-! ## Deal summation (BitrixAPIClient.calculate_deals_sum, bot2.py lines 637-648) -/

/-- Embedding of the summation loop of `calculate_deals_sum` over the
fetched deal records: `amount = deal.get('OPPORTUNITY') or 0`, added
only when it is an int or float (bools included, Python subclassing). -/
def calculate_deals_sum (deals : List (List (String × PyVal))) : Rat :=
  deals.foldl
    (fun total deal =>
      let raw := (dget deal "OPPORTUNITY").getD .none
      let amount := if pyTruthy raw then raw else .int 0
      match amount with
      | .int n => total + (n : Rat)
      | .float q => total + q
      | .bool b => total + (if b then (1 : Rat) else 0)
      | _ => total)
    0

/-- Modelled from the spec: the per-deal amount `sumDeals` is said to
add, namely the opportunity-amount field with non-numeric or missing
amounts treated as 0. Used to compare the code's fold against the
spec's description. -/
def spec_opportunity_amount (deal : List (String × PyVal)) : Rat :=
  match dget deal "OPPORTUNITY" with
  | some (.int n) => (n : Rat)
  | some (.float q) => q
  | some (.bool b) => if b then 1 else 0
  | _ => 0

/-! ## get_tasks response handling (bot2.py lines 338-368)

`_make_request` may raise (remote error payload, network failure,
timeout); its outcome is an `Except`. `get_tasks` wraps the request and
the normalization in `try/except` and converts any failure into an
error dict; `get_deals`/`get_leads` have no handler and propagate. -/

/-- Python `x.get(k, default)` where `x` must be a dict, raising
(`AttributeError`) otherwise. -/
def pyGetAttrD (v : PyVal) (k : String) (dflt : PyVal) : Except String PyVal :=
  match v with
  | .dict d => Except.ok ((dget d k).getD dflt)
  | _ => Except.error "AttributeError: object has no attribute get"

/-- The normalization of one raw task element inside `get_tasks`:
`task.get(...)` raises when the element is not a dict. -/
def normalize_task_val (v : PyVal) : Except String PyVal :=
  match v with
  | .dict t => Except.ok (.dict (normalize_task t))
  | _ => Except.error "AttributeError: object has no attribute get"

/-- The body of the `try` block of `get_tasks` after the request
succeeded with `data`: when a `result` key is present, read its `tasks`
(defaulting to the empty list), iterate (raising on a non-list), and
normalize each element; otherwise return the response unchanged. -/
def get_tasks_body (data : PyVal) : Except String PyVal :=
  match data with
  | .dict d =>
    match dget d "result" with
    | some res => do
      let tasksV ← pyGetAttrD res "tasks" (.list [])
      match tasksV with
      | .list items => do
        let normalized ← items.mapM normalize_task_val
        pure (.dict [("tasks", .list normalized)])
      | _ => Except.error "TypeError: object is not iterable"
    | Option.none => Except.ok data
  | _ => Except.error "TypeError: argument of type is not iterable"

/-- The error dict `get_tasks` builds in its `except` handler. -/
def tasksErrorDict (e : String) : PyVal :=
  .dict [("error", .str e), ("tasks", .list [])]

/-- Embedding of `BitrixAPIClient.get_tasks` from the request outcome
on: the result type is still `Except` (what the caller observes), and
the `try/except` converts every failure into the error dict. -/
def get_tasks_result (req : Except String PyVal) : Except String PyVal :=
  Except.ok
    (match req.bind get_tasks_body with
     | Except.ok v => v
     | Except.error e => tasksErrorDict e)

/-- Embedding of `BitrixAPIClient.get_deals` from the request outcome
on: the response (or failure) of `_make_request` is returned unhandled. -/
def get_deals_result (req : Except String PyVal) : Except String PyVal :=
  req

/-- Embedding of `BitrixAPIClient.get_leads` from the request outcome
on: the response (or failure) of `_make_request` is returned unhandled. -/
def get_leads_result (req : Except String PyVal) : Except String PyVal :=
  req

/-! ## Conversation terminal and edit handlers (bot2.py lines 1729-1994, 2177-2560)

Handlers are modelled as pure functions of the collected session data,
the incoming message text, the stored webhook record (`None` when the
user is not linked) and the outcome of the CRM call they issue. The
chat replies are typed by kind; `Reply.notLinked` is the
"Сначала привяжитесь к Bitrix24: /auth" prompt the flow-start handlers
send, `Reply.genericError` is the `except` handler's "Ошибка: ..."
message. -/

/-- Kinds of chat replies the handlers produce. -/
inductive Reply where
  | notLinked
  | genericError (e : String)
  | apiError (msg : String)
  | success (msg : String)
  | askRetry (msg : String)
deriving DecidableEq

/-- CRM client calls a handler can issue. -/
inductive ApiCall where
  | addComment (entity eid txt : String)
  | updateDeal (eid : String) (fields : List (String × PyVal))
  | updateTask (eid : String) (fields : List (String × PyVal))
  | updateLead (eid : String) (fields : List (String × PyVal))
  | createLead (fields : List (String × PyVal))
  | createDeal (fields : List (String × PyVal))
  | createTask (fields : List (String × PyVal))

/-- Whether a call is one of the generic update-fields calls. -/
def isUpdateCall : ApiCall → Bool
  | .updateDeal _ _ => true
  | .updateTask _ _ => true
  | .updateLead _ _ => true
  | _ => false

/-- Observable outcome of one handler run: replies sent, whether the
session was cleared, and the CRM calls issued. -/
structure HandlerOutcome where
  replies : List Reply
  cleared : Bool
  calls : List ApiCall

/-- Python subscription `w[k]` on the optional webhook record: raises
`TypeError` on `None` and `KeyError` on a missing key. -/
def pySubscript (w : Option (List (String × PyVal))) (k : String) : Except String PyVal :=
  match w with
  | Option.none => Except.error "TypeError: NoneType object is not subscriptable"
  | some d =>
    match dget d k with
    | some v => Except.ok v
    | Option.none => Except.error ("KeyError: " ++ k)

/-- Embedding of `check_bitrix_connected`: the record exists and its
`full_webhook_url` value is not `None`. -/
def check_bitrix_connected (w : Option (List (String × PyVal))) : Bool :=
  match w with
  | Option.none => false
  | some d =>
    match dget d "full_webhook_url" with
    | some .none => false
    | some _ => true
    | Option.none => false

/-- The two subscripts `webhook_data['full_webhook_url']` and
`webhook_data['user_id']` used to construct the CRM client. -/
def clientArgs (w : Option (List (String × PyVal))) : Except String (PyVal × PyVal) := do
  let fu ← pySubscript w "full_webhook_url"
  let uid ← pySubscript w "user_id"
  pure (fu, uid)

/-- Python `'result' in result` for the dict-shaped API responses. -/
def hasKeyPy (v : PyVal) (k : String) : Bool :=
  match v with
  | .dict d => (dget d k).isSome
  | _ => false

/-- Python `result['result'] is True` on a dict-shaped response. -/
def resultIsTrue (v : PyVal) : Bool :=
  match v with
  | .dict d =>
    match dget d "result" with
    | some (.bool true) => true
    | _ => false
  | _ => false

/-- Embedding of the flow-start guard shared by the creation/edit
commands: when `check_bitrix_connected` fails, the handler replies with
the NotLinked prompt and stops before starting the flow. -/
def flow_start_guard (w : Option (List (String × PyVal))) : Option Reply :=
  if check_bitrix_connected w then Option.none else some Reply.notLinked

/-- Embedding of `process_lead_title`, the terminal step of the lead
creation flow: store the title, fetch the webhook record, and inside
`try` subscript it to build the client; any exception (in particular
the `TypeError` from an unlinked `None` record) becomes a generic error
reply; the session is cleared on every path. -/
def process_lead_title (ud : List (String × PyVal)) (text : String)
    (w : Option (List (String × PyVal))) (createRes : Except String PyVal) :
    HandlerOutcome :=
  let ud := dset ud "title" (.str text)
  match clientArgs w with
  | Except.error e => ⟨[Reply.genericError e], true, []⟩
  | Except.ok _ =>
    let fields : List (String × PyVal) :=
      [("NAME", (dget ud "name").getD (.str "")),
       ("PHONE", .list [.dict [("VALUE", (dget ud "phone").getD (.str "")),
                               ("VALUE_TYPE", .str "WORK")]]),
       ("SOURCE_ID", (dget ud "source").getD (.str "WEB")),
       ("TITLE", (dget ud "title").getD (.str "Новый лид"))]
    match createRes with
    | Except.error e => ⟨[Reply.genericError e], true, [.createLead fields]⟩
    | Except.ok res =>
      if hasKeyPy res "result" then ⟨[Reply.success "лид создан"], true, [.createLead fields]⟩
      else ⟨[Reply.apiError "ошибка при создании лида"], true, [.createLead fields]⟩

/-- Embedding of `process_deal_contact`, the terminal step of the deal
creation flow (same shape: no linkage re-check, subscripts inside
`try`, session always cleared). -/
def process_deal_contact (ud : List (String × PyVal)) (text : String)
    (w : Option (List (String × PyVal))) (createRes : Except String PyVal) :
    HandlerOutcome :=
  let contact_id : Option String := if pyStrip text ≠ "" then some (pyStrip text) else Option.none
  let ud := dset ud "contact_id"
    (match contact_id with | some s => .str s | Option.none => .none)
  match clientArgs w with
  | Except.error e => ⟨[Reply.genericError e], true, []⟩
  | Except.ok _ =>
    let fields : List (String × PyVal) :=
      [("TITLE", (dget ud "title").getD (.str "")),
       ("STAGE_ID", (dget ud "stage").getD (.str "NEW")),
       ("OPPORTUNITY", (dget ud "amount").getD (.int 0)),
       ("CURRENCY_ID", .str "RUB")]
    let fields :=
      match contact_id with
      | some cid =>
        if cid.startsWith "C_" then dset fields "CONTACT_ID" (.str (cid.replace "C_" ""))
        else if cid.startsWith "CO_" then dset fields "COMPANY_ID" (.str (cid.replace "CO_" ""))
        else dset fields "CONTACT_ID" (.str cid)
      | Option.none => fields
    match createRes with
    | Except.error e => ⟨[Reply.genericError e], true, [.createDeal fields]⟩
    | Except.ok res =>
      if hasKeyPy res "result" then ⟨[Reply.success "сделка создана"], true, [.createDeal fields]⟩
      else ⟨[Reply.apiError "ошибка при создании сделки"], true, [.createDeal fields]⟩

/-- Embedding of `process_task_deadline`, the terminal step of the task
creation flow: a malformed deadline re-prompts and returns before the
final `state.clear()` (session kept); an unlinked `None` webhook record
raises inside `try` and yields a generic error with the session
cleared. -/
def process_task_deadline (ud : List (String × PyVal)) (text : String)
    (w : Option (List (String × PyVal))) (createRes : Except String PyVal) :
    HandlerOutcome :=
  let deadline : Option String := if pyStrip text ≠ "" then some (pyStrip text) else Option.none
  match clientArgs w with
  | Except.error e => ⟨[Reply.genericError e], true, []⟩
  | Except.ok _ =>
    let fields : List (String × PyVal) :=
      [("TITLE", (dget ud "title").getD (.str "Новая задача")),
       ("DESCRIPTION", (dget ud "description").getD (.str "")),
       ("PRIORITY", (dget ud "priority").getD (.int 3))]
    let submit : List (String × PyVal) → HandlerOutcome := fun fs =>
      match createRes with
      | Except.error e => ⟨[Reply.genericError e], true, [.createTask fs]⟩
      | Except.ok res =>
        if hasKeyPy res "result" then ⟨[Reply.success "задача создана"], true, [.createTask fs]⟩
        else ⟨[Reply.apiError "ошибка при создании задачи"], true, [.createTask fs]⟩
    match deadline with
    | some dl =>
      match strptimeYmd dl with
      | some _ => submit (dset fields "DEADLINE" (.str dl))
      | Option.none => ⟨[Reply.askRetry "неверный формат даты"], false, []⟩
    | Option.none => submit fields

/-- Shared update-path tail of the three edit-value handlers. -/
def updateOutcome (call : ApiCall) (okMsg errMsg : String)
    (apiRes : Except String PyVal) : HandlerOutcome :=
  match apiRes with
  | Except.error e => ⟨[Reply.genericError e], true, [call]⟩
  | Except.ok res =>
    if hasKeyPy res "result" && resultIsTrue res then ⟨[Reply.success okMsg], true, [call]⟩
    else ⟨[Reply.apiError errMsg], true, [call]⟩

/-- Shared comment-path tail of the three edit-value handlers: issue
`add_comment` immediately, report, clear the session and return. -/
def commentOutcome (entity eid txt : String)
    (apiRes : Except String PyVal) : HandlerOutcome :=
  match apiRes with
  | Except.error e => ⟨[Reply.genericError e], true, [.addComment entity eid txt]⟩
  | Except.ok res =>
    if hasKeyPy res "result" then
      ⟨[Reply.success "комментарий добавлен"], true, [.addComment entity eid txt]⟩
    else ⟨[Reply.apiError "ошибка при добавлении комментария"], true, [.addComment entity eid txt]⟩

/-- Embedding of `process_deal_value` (deal field edit): the session
holds `deal_id` and `field` as strings (empty string standing for a
falsy/missing value); `OPPORTUNITY` and `PROBABILITY` parse and
validate locally (re-prompting keeps the session), `COMMENTS`
short-circuits into `add_comment`, everything else goes through
`update_deal`. -/
def process_deal_value (deal_id field : String) (text : String)
    (w : Option (List (String × PyVal))) (apiRes : Except String PyVal) :
    HandlerOutcome :=
  let value := pyStrip text
  if deal_id = "" ∨ field = "" then ⟨[Reply.apiError "не найдены данные сделки"], true, []⟩
  else
    match clientArgs w with
    | Except.error e => ⟨[Reply.genericError e], true, []⟩
    | Except.ok _ =>
      if field = "OPPORTUNITY" then
        match pyStrToFloat (value.replace "," ".") with
        | some q =>
          updateOutcome (.updateDeal deal_id [(field, .float q)])
            "сделка обновлена" "ошибка при обновлении сделки" apiRes
        | Option.none => ⟨[Reply.askRetry "введите корректную сумму"], false, []⟩
      else if field = "PROBABILITY" then
        match pyStrToInt value with
        | some p =>
          if 0 ≤ p ∧ p ≤ 100 then
            updateOutcome (.updateDeal deal_id [(field, .int p)])
              "сделка обновлена" "ошибка при обновлении сделки" apiRes
          else ⟨[Reply.askRetry "вероятность должна быть от 0 до 100"], false, []⟩
        | Option.none => ⟨[Reply.askRetry "введите число от 0 до 100"], false, []⟩
      else if field = "COMMENTS" then
        commentOutcome "deal" deal_id value apiRes
      else
        updateOutcome (.updateDeal deal_id [(field, .str value)])
          "сделка обновлена" "ошибка при обновлении сделки" apiRes

/-- Embedding of `process_task_value` (task field edit): `PRIORITY`,
`STATUS`, `DEADLINE` and `RESPONSIBLE_ID` validate locally, `COMMENTS`
short-circuits into `add_comment`, everything else goes through
`update_task`. -/
def process_task_value (task_id field : String) (text : String)
    (w : Option (List (String × PyVal))) (apiRes : Except String PyVal) :
    HandlerOutcome :=
  let value := pyStrip text
  if task_id = "" ∨ field = "" then ⟨[Reply.apiError "не найдены данные задачи"], true, []⟩
  else
    match clientArgs w with
    | Except.error e => ⟨[Reply.genericError e], true, []⟩
    | Except.ok _ =>
      if field = "PRIORITY" then
        match pyStrToInt value with
        | some p =>
          if p = 1 ∨ p = 2 ∨ p = 3 then
            updateOutcome (.updateTask task_id [(field, .int p)])
              "задача обновлена" "ошибка при обновлении задачи" apiRes
          else ⟨[Reply.askRetry "приоритет должен быть 1, 2 или 3"], false, []⟩
        | Option.none => ⟨[Reply.askRetry "введите число 1, 2 или 3"], false, []⟩
      else if field = "STATUS" then
        match pyStrToInt value with
        | some p =>
          if p = 1 ∨ p = 2 ∨ p = 3 ∨ p = 5 then
            updateOutcome (.updateTask task_id [(field, .int p)])
              "задача обновлена" "ошибка при обновлении задачи" apiRes
          else ⟨[Reply.askRetry "статус должен быть 1, 2, 3 или 5"], false, []⟩
        | Option.none => ⟨[Reply.askRetry "введите число 1, 2, 3 или 5"], false, []⟩
      else if field = "DEADLINE" then
        match strptimeYmd value with
        | some _ =>
          updateOutcome (.updateTask task_id [(field, .str value)])
            "задача обновлена" "ошибка при обновлении задачи" apiRes
        | Option.none => ⟨[Reply.askRetry "неверный формат даты"], false, []⟩
      else if field = "COMMENTS" then
        commentOutcome "task" task_id value apiRes
      else if field = "RESPONSIBLE_ID" then
        match pyStrToInt value with
        | some p =>
          updateOutcome (.updateTask task_id [(field, .int p)])
            "задача обновлена" "ошибка при обновлении задачи" apiRes
        | Option.none => ⟨[Reply.askRetry "введите числовой ID пользователя"], false, []⟩
      else
        updateOutcome (.updateTask task_id [(field, .str value)])
          "задача обновлена" "ошибка при обновлении задачи" apiRes

/-- Embedding of `process_lead_value` (lead field edit): `PHONE` and
`EMAIL` wrap the value, `ASSIGNED_BY_ID` parses an int, `COMMENTS`
short-circuits into `add_comment`, everything else goes through
`update_lead`. -/
def process_lead_value (lead_id field : String) (text : String)
    (w : Option (List (String × PyVal))) (apiRes : Except String PyVal) :
    HandlerOutcome :=
  let value := pyStrip text
  if lead_id = "" ∨ field = "" then ⟨[Reply.apiError "не найдены данные лида"], true, []⟩
  else
    match clientArgs w with
    | Except.error e => ⟨[Reply.genericError e], true, []⟩
    | Except.ok _ =>
      if field = "PHONE" ∨ field = "EMAIL" then
        updateOutcome
          (.updateLead lead_id
            [(field, .list [.dict [("VALUE", .str value), ("VALUE_TYPE", .str "WORK")]])])
          "лид обновлен" "ошибка при обновлении лида" apiRes
      else if field = "ASSIGNED_BY_ID" then
        match pyStrToInt value with
        | some p =>
          updateOutcome (.updateLead lead_id [(field, .int p)])
            "лид обновлен" "ошибка при обновлении лида" apiRes
        | Option.none => ⟨[Reply.askRetry "введите числовой ID пользователя"], false, []⟩
      else if field = "COMMENTS" then
        commentOutcome "lead" lead_id value apiRes
      else
        updateOutcome (.updateLead lead_id [(field, .str value)])
          "лид обновлен" "ошибка при обновлении лида" apiRes

/-! ## Heap model of the masking call (for the no-mutation property)

`_mask_sensitive_data` must never mutate the outbound payload. To make
that statement non-trivial, dicts and lists are modelled as heap
objects: slot values are scalars or references, a store maps addresses
to objects, `data.copy()` and every `masked = ...` / list comprehension
allocates a fresh object, `masked[key] = v` is a genuine store write.
The theorem shows every pre-existing address is left untouched and the
request still posts the original params object. -/

/-- Slot values of the heap model: scalars or object references. -/
inductive HVal where
  | str (s : String)
  | int (n : Int)
  | float (q : Rat)
  | bool (b : Bool)
  | none
  | ref (a : Nat)

/-- Heap objects: dicts (ordered bindings) and lists. -/
inductive HObj where
  | dictO (entries : List (String × HVal))
  | listO (elems : List HVal)

/-- A store: the next fresh address and the memory. -/
structure Store where
  next : Nat
  mem : Nat → Option HObj

/-- Allocate a fresh object, returning its address. -/
def Store.alloc (σ : Store) (o : HObj) : Nat × Store :=
  (σ.next, ⟨σ.next + 1, fun x => if x = σ.next then some o else σ.mem x⟩)

/-- `d[k] = v` on heap dict entries (same semantics as `dset`). -/
def dsetH : List (String × HVal) → String → HVal → List (String × HVal)
  | [], x, w => [(x, w)]
  | (k, v) :: rest, x, w => if k = x then (k, w) :: rest else (k, v) :: dsetH rest x w

/-- A store write `a[k] = v` on the dict object at address `a`. -/
def Store.setEntry (σ : Store) (a : Nat) (k : String) (v : HVal) : Store :=
  ⟨σ.next, fun x =>
    if x = a then
      match σ.mem a with
      | some (HObj.dictO es) => some (HObj.dictO (dsetH es k v))
      | o => o
    else σ.mem x⟩

/-- Heap version of the inner `mask_value` helper: references reaching
it are list objects, which are neither `str` nor `int`/`float`, so they
fall into the `***` branch like every other non-scalar. -/
def mask_valueH : HVal → HVal
  | .str s =>
    if s.length > 8 then .str (strTake s 4 ++ "***" ++ strDrop s (s.length - 4))
    else .str "***"
  | .int n => .int n
  | .float q => .float q
  | .bool b => .bool b
  | _ => .str "***"

/-- The non-object branches of the `mask_dict` loop: sensitive names
force `***`, long strings truncate, everything else is kept. -/
def maskScalarH (k : String) (v : HVal) : HVal :=
  if isSensitiveName k then .str "***"
  else
    match v with
    | .str s =>
      if s.length > 20 then .str (strTake s 10 ++ "..." ++ strDrop s (s.length - 10))
      else .str s
    | w => w

mutual

/-- Heap version of `mask_dict`: reads the source dict, allocates the
fresh `masked = \x7b\x7d` object, then fills it binding by binding. The
fuel bounds the recursion depth (the Python recursion likewise
diverges on cyclic data, which JSON params never are). -/
def maskDictH (fuel : Nat) (a : Nat) (σ : Store) : HVal × Store :=
  match fuel with
  | 0 => (HVal.ref a, σ)
  | fuel + 1 =>
    match σ.mem a with
    | some (HObj.dictO es) =>
      (HVal.ref ((σ.alloc (HObj.dictO [])).1),
       maskEntriesH fuel es ((σ.alloc (HObj.dictO [])).1) ((σ.alloc (HObj.dictO [])).2))
    | _ => (HVal.ref a, σ)
termination_by (fuel, 0, 0)

/-- The loop of `mask_dict` over the source bindings, writing each
masked value into the fresh dict at address `m`. -/
def maskEntriesH (fuel : Nat) (es : List (String × HVal)) (m : Nat) (σ : Store) : Store :=
  match es with
  | [] => σ
  | (k, v) :: rest =>
    maskEntriesH fuel rest m
      (((entryStepH fuel k v σ).2).setEntry m k ((entryStepH fuel k v σ).1))
termination_by (fuel, 5, es.length)

/-- One binding of the `mask_dict` loop, in the source's branch order:
dict values recurse, list values go through the comprehension, all
other values through the scalar rules. -/
def entryStepH (fuel : Nat) (k : String) (v : HVal) (σ : Store) : HVal × Store :=
  match v with
  | HVal.ref a =>
    match σ.mem a with
    | some (HObj.dictO _) => maskDictH fuel a σ
    | some (HObj.listO items) => maskItemsH fuel items σ
    | Option.none => (maskScalarH k v, σ)
  | _ => (maskScalarH k v, σ)
termination_by (fuel, 4, 0)

/-- The list comprehension of `mask_dict`: mask the elements, then
allocate the fresh list object. -/
def maskItemsH (fuel : Nat) (items : List HVal) (σ : Store) : HVal × Store :=
  (HVal.ref ((((maskItemListH fuel items σ).2).alloc
      (HObj.listO ((maskItemListH fuel items σ).1))).1),
   (((maskItemListH fuel items σ).2).alloc
      (HObj.listO ((maskItemListH fuel items σ).1))).2)
termination_by (fuel, 3, 0)

/-- Element-wise masking inside the comprehension: dict elements
recurse through `mask_dict`, all others go through `mask_value`. -/
def maskItemListH (fuel : Nat) (items : List HVal) (σ : Store) : List HVal × Store :=
  match items with
  | [] => ([], σ)
  | v :: rest =>
    ((itemStepH fuel v σ).1 ::
       (maskItemListH fuel rest ((itemStepH fuel v σ).2)).1,
     (maskItemListH fuel rest ((itemStepH fuel v σ).2)).2)
termination_by (fuel, 2, items.length)

/-- One element of the comprehension. -/
def itemStepH (fuel : Nat) (v : HVal) (σ : Store) : HVal × Store :=
  match v with
  | HVal.ref a =>
    match σ.mem a with
    | some (HObj.dictO _) => maskDictH fuel a σ
    | _ => (mask_valueH v, σ)
  | _ => (mask_valueH v, σ)
termination_by (fuel, 1, 0)

end

/-- Heap version of `_mask_sensitive_data`: a falsy (empty) dict is
returned as is; otherwise `data.copy()` allocates a shallow copy and
`mask_dict` runs on the copy. -/
def mask_sensitive_dataH (fuel : Nat) (a : Nat) (σ : Store) : HVal × Store :=
  match σ.mem a with
  | some (HObj.dictO []) => (HVal.ref a, σ)
  | some (HObj.dictO es) =>
    let (c, σ1) := σ.alloc (HObj.dictO es)
    maskDictH fuel c σ1
  | _ => (HVal.ref a, σ)

/-- What `_make_request` does with its params before sending: log the
masked copy when params are non-empty, then post the original params
object as the JSON body. -/
structure RequestTrace where
  sentParams : Nat
  loggedParams : Option HVal
  store : Store

/-- Embedding of the params handling of `BitrixAPIClient._make_request`:
the logged value is the masked copy, the posted body is the original
object at address `a`. -/
def make_request_params (fuel : Nat) (a : Nat) (σ : Store) : RequestTrace :=
  match σ.mem a with
  | some (HObj.dictO []) => ⟨a, Option.none, σ⟩
  | some (HObj.dictO _) =>
    let (mv, σ1) := mask_sensitive_dataH fuel a σ
    ⟨a, some mv, σ1⟩
  | _ => ⟨a, Option.none, σ⟩

/-! ## Dictionary lemmas -/

/-- After `d[k] = v`, looking up `k` yields `v`. -/
theorem dget_dset_self (d : List (String × PyVal)) (k : String) (v : PyVal) :
    dget (dset d k v) k = some v := by
  induction d with
  | nil => simp [dset, dget]
  | cons hd tl ih =>
    obtain ⟨a, b⟩ := hd
    by_cases h : a = k <;> simp [dset, dget, h, ih]

/-- `d[k] = v` leaves every other key unchanged. -/
theorem dget_dset_ne (d : List (String × PyVal)) (k x : String) (v : PyVal)
    (h : x ≠ k) : dget (dset d k v) x = dget d x := by
  induction d with
  | nil =>
    have h2 : ¬(k = x) := fun hh => h hh.symm
    simp [dset, dget, h2]
  | cons hd tl ih =>
    obtain ⟨a, b⟩ := hd
    by_cases ha : a = k
    · subst ha
      have h2 : ¬(a = x) := fun hh => h hh.symm
      simp [dset, dget, h2]
    · simp only [dset, if_neg ha]
      by_cases hx : a = x <;> simp [dget, hx, ih]

/-- `d.update(e)` leaves keys outside `e` unchanged. -/
theorem dget_dupdate_not_mem (d e : List (String × PyVal)) (k : String)
    (h : k ∉ e.map Prod.fst) : dget (dupdate d e) k = dget d k := by
  induction e generalizing d with
  | nil => simp [dupdate]
  | cons hd tl ih =>
    obtain ⟨a, b⟩ := hd
    simp only [List.map_cons, List.mem_cons] at h
    push_neg at h
    have step : dupdate d ((a, b) :: tl) = dupdate (dset d a b) tl := rfl
    rw [step, ih _ h.2, dget_dset_ne _ _ _ _ h.1]

/-- `d.update(e)` installs every binding of `e` (keys of `e` distinct). -/
theorem dget_dupdate_mem : ∀ (e d : List (String × PyVal)) (k : String) (v : PyVal),
    (e.map Prod.fst).Nodup → (k, v) ∈ e → dget (dupdate d e) k = some v := by
  intro e
  induction e with
  | nil =>
    intro d k v _ h
    simp at h
  | cons hd tl ih =>
    intro d k v hnd h
    obtain ⟨a, b⟩ := hd
    have step : dupdate d ((a, b) :: tl) = dupdate (dset d a b) tl := rfl
    simp only [List.map_cons, List.nodup_cons] at hnd
    rcases List.mem_cons.mp h with heq | hmem
    · have hka : k = a := congrArg Prod.fst heq
      have hvb : v = b := congrArg Prod.snd heq
      subst hka
      subst hvb
      have hk : k ∉ tl.map Prod.fst := by
        simpa using hnd.1
      rw [step, dget_dupdate_not_mem _ _ _ hk, dget_dset_self]
    · exact step ▸ ih (dset d a b) k v hnd.2 hmem

/-! ## C1: the overdue flag on normalized task records -/

/-- The statistics loop's lowercase `deadline` lookup misses the
normalized records' uppercase `DEADLINE` key. -/
theorem dget_normalize_deadline (t : List (String × PyVal)) :
    dget (normalize_task t) "deadline" = Option.none := rfl

/-- Normalized records carry no `closedDate` key at all. -/
theorem dget_normalize_closedDate (t : List (String × PyVal)) :
    dget (normalize_task t) "closedDate" = Option.none := rfl

/-- On a normalized record the overdue test always comes out false. -/
theorem isOverdue_normalize (now : Pdt) (t : List (String × PyVal)) :
    isOverdueOfTask now (normalize_task t) = false := rfl

/-- C1 fixture: the raw task of the spec's overdue scenario. -/
def c1Raw : List (String × PyVal) :=
  [("id", PyVal.int 1), ("title", PyVal.str "t"), ("status", PyVal.str "3"),
   ("deadline", PyVal.str "2020-01-01T00:00:00+03:00")]

/-- C1 fixture: a "now" after 2020. -/
def c1Now : Pdt := ⟨2021, 6, 15, 12, 0, 0⟩

/-- C1 (code bug): a normalized status-3 task whose `DEADLINE` string
parses to a date strictly before "now" and which has no closed date is
NOT counted as overdue by `get_task_statistics` — the loop reads the
raw sub-API keys `deadline`/`closedDate`, which normalization just
renamed away, so `overdue` stays 0 (the task lands in `in_progress`
only); feeding the raw, un-normalized record instead does trip the
overdue counter, confirming the key mismatch is the cause. -/
theorem overdue_flag_dead_after_normalization :
    (get_task_statistics c1Now [normalize_task c1Raw]).overdue = 0 ∧
    (get_task_statistics c1Now [normalize_task c1Raw]).in_progress = 1 ∧
    dget (normalize_task c1Raw) "DEADLINE" =
      some (PyVal.str "2020-01-01T00:00:00+03:00") ∧
    strptimeYmd (strTake "2020-01-01T00:00:00+03:00" 10) =
      some ⟨2020, 1, 1, 0, 0, 0⟩ ∧
    pdtLt ⟨2020, 1, 1, 0, 0, 0⟩ c1Now = true ∧
    (get_task_statistics c1Now [c1Raw]).overdue = 1 :=
  ⟨by decide, by decide, rfl, by decide, by decide, by decide⟩

/-! ## C2: bucket invariants of the statistics fold -/

/-- Each classified task increments `total` by exactly one. -/
theorem classifyTask_total (now : Pdt) (s : TaskStats) (t : List (String × PyVal)) :
    (classifyTask now s t).total = s.total + 1 := by
  simp only [classifyTask]
  repeat' split
  all_goals rfl

/-- On a normalized record each classified task lands in exactly one of
the five status buckets (the overdue test is dead there). -/
theorem classifyTask_norm_bucketSum (now : Pdt) (s : TaskStats)
    (t : List (String × PyVal)) :
    bucketSum (classifyTask now s (normalize_task t)) = bucketSum s + 1 := by
  simp only [classifyTask, isOverdue_normalize, Bool.false_eq_true, if_false]
  repeat' split
  all_goals simp [bucketSum]
  all_goals omega

/-- On a normalized record the overdue counter never moves. -/
theorem classifyTask_norm_overdue (now : Pdt) (s : TaskStats)
    (t : List (String × PyVal)) :
    (classifyTask now s (normalize_task t)).overdue = s.overdue := by
  simp only [classifyTask, isOverdue_normalize, Bool.false_eq_true, if_false]
  repeat' split
  all_goals rfl

/-- Folding the classifier over normalized records adds the record count
to `total` and to the bucket sum and leaves `overdue` unchanged. -/
theorem stats_fold_norm (now : Pdt) :
    ∀ (raws : List (List (String × PyVal))) (s : TaskStats),
    ((raws.map normalize_task).foldl (classifyTask now) s).total = s.total + raws.length ∧
    bucketSum ((raws.map normalize_task).foldl (classifyTask now) s) =
      bucketSum s + raws.length ∧
    ((raws.map normalize_task).foldl (classifyTask now) s).overdue = s.overdue := by
  intro raws
  induction raws with
  | nil => intro s; simp
  | cons hd tl ih =>
    intro s
    simp only [List.map_cons, List.foldl_cons, List.length_cons]
    obtain ⟨h1, h2, h3⟩ := ih (classifyTask now s (normalize_task hd))
    refine ⟨?_, ?_, ?_⟩
    · rw [h1, classifyTask_total]
      omega
    · rw [h2, classifyTask_norm_bucketSum]
      omega
    · rw [h3, classifyTask_norm_overdue]

/-- C2 counterexample: the claim says rejected (status 7) tasks are
excluded from all counters including `total`, so a task list consisting
of a single rejected task would have `total = 0`; the code counts it
(in `total` and in the `pending` fallback bucket). -/
theorem rejected_task_is_counted :
    (get_task_statistics ⟨2025, 1, 1, 0, 0, 0⟩
        [normalize_task [("status", PyVal.str "7")]]).total = 1 ∧
    (get_task_statistics ⟨2025, 1, 1, 0, 0, 0⟩
        [normalize_task [("status", PyVal.str "7")]]).pending = 1 ∧
    ¬ (get_task_statistics ⟨2025, 1, 1, 0, 0, 0⟩
        [normalize_task [("status", PyVal.str "7")]]).total = 0 :=
  ⟨by decide, by decide, by decide⟩

/-- C2 (amended): over any list of normalized task records the
statistics assign every task — rejected (status 7) ones included, which
fall into the `pending` bucket — to exactly one status bucket, `total`
counts all tasks, and `total = completed + in_progress + pending +
deferred + awaiting_control` holds; `overdue` stays 0 on normalized
records (see C1). -/
theorem stats_bucket_invariant :
    (∀ (now : Pdt) (raws : List (List (String × PyVal))),
      (get_task_statistics now (raws.map normalize_task)).total = raws.length ∧
      (get_task_statistics now (raws.map normalize_task)).total =
        bucketSum (get_task_statistics now (raws.map normalize_task)) ∧
      (get_task_statistics now (raws.map normalize_task)).overdue = 0) ∧
    (get_task_statistics ⟨2025, 1, 1, 0, 0, 0⟩
        [normalize_task [("status", PyVal.str "7")]]).pending = 1 := by
  refine ⟨?_, by decide⟩
  intro now raws
  obtain ⟨h1, h2, h3⟩ := stats_fold_norm now raws initStats
  unfold get_task_statistics
  have hi1 : initStats.total = 0 := rfl
  have hi2 : bucketSum initStats = 0 := rfl
  have hi3 : initStats.overdue = 0 := rfl
  refine ⟨?_, ?_, ?_⟩
  · rw [h1, hi1]
    omega
  · rw [h1, h2, hi1, hi2]
  · rw [h3, hi3]

/-! ## C3: user scoping of the listing filters -/

/-- The filter a params dict carries, defaulting to the empty dict. -/
def filterOfD (params : List (String × PyVal)) : List (String × PyVal) :=
  (filterOf params).getD []

/-- The deals filter when the webhook user id is set: the caller filter
with `ASSIGNED_BY_ID` forced to the webhook user id afterwards. -/
theorem get_deals_filter_eq (u : String) (caller : Option (List (String × PyVal)))
    (hu : u ≠ "") :
    filterOf (get_deals_params (some u) caller) =
      some (dset (caller.getD []) "ASSIGNED_BY_ID" (PyVal.str u)) := by
  simp only [get_deals_params, if_pos hu, List.map_id]
  have hne : ¬(dset (caller.getD []) "ASSIGNED_BY_ID" (PyVal.str u)).isEmpty = true := by
    cases caller.getD [] with
    | nil => simp [dset]
    | cons hd tl =>
      obtain ⟨a, b⟩ := hd
      by_cases h : a = "ASSIGNED_BY_ID" <;> simp [dset, h]
  rw [if_neg hne]
  simp only [filterOf]
  rw [dget_dset_ne _ _ _ _ (by decide)]
  simp [dget]

/-- The leads filter when the webhook user id is set (same shape). -/
theorem get_leads_filter_eq (u : String) (caller : Option (List (String × PyVal)))
    (hu : u ≠ "") :
    filterOf (get_leads_params (some u) caller) =
      some (dset (caller.getD []) "ASSIGNED_BY_ID" (PyVal.str u)) := by
  simp only [get_leads_params, if_pos hu, List.map_id]
  have hne : ¬(dset (caller.getD []) "ASSIGNED_BY_ID" (PyVal.str u)).isEmpty = true := by
    cases caller.getD [] with
    | nil => simp [dset]
    | cons hd tl =>
      obtain ⟨a, b⟩ := hd
      by_cases h : a = "ASSIGNED_BY_ID" <;> simp [dset, h]
  rw [if_neg hne]
  simp only [filterOf]
  rw [dget_dset_ne _ _ _ _ (by decide)]
  simp [dget]

/-- The tasks filter when the webhook user id is set: the scope binding
first, then the caller filter merged over it with `dict.update`. -/
theorem get_tasks_filter_eq (u : String) (caller : List (String × PyVal))
    (hu : u ≠ "") (hc : caller ≠ []) :
    filterOf (get_tasks_params (some u) (some caller)) =
      some (dupdate [("RESPONSIBLE_ID", taskScopeVal u)] caller) := by
  simp only [get_tasks_params, if_pos hu]
  rw [if_neg (by simpa using hc)]
  have hbase :
      dget (dset [("order", PyVal.dict [("ID", PyVal.str "DESC")]),
        ("select", PyVal.list [PyVal.str "ID", PyVal.str "TITLE", PyVal.str "STATUS",
          PyVal.str "DEADLINE", PyVal.str "PRIORITY", PyVal.str "RESPONSIBLE_ID",
          PyVal.str "CREATED_DATE", PyVal.str "DESCRIPTION"])]
        "filter" (PyVal.dict [("RESPONSIBLE_ID", taskScopeVal u)])) "filter" =
        some (PyVal.dict [("RESPONSIBLE_ID", taskScopeVal u)]) :=
    dget_dset_self ..
  rw [hbase]
  simp only [filterOf]
  rw [dget_dset_self]

/-- C3 counterexample: a caller-supplied filter for `get_tasks` that
names `RESPONSIBLE_ID` replaces the scope binding derived from the
webhook user id `10` — the claim says the scope key is never replaced. -/
theorem caller_filter_overrides_task_scope :
    filterOf (get_tasks_params (some "10") (some [("RESPONSIBLE_ID", PyVal.int 999)])) =
      some [("RESPONSIBLE_ID", PyVal.int 999)] ∧
    taskScopeVal "10" = PyVal.int 10 ∧
    ¬ filterOf (get_tasks_params (some "10") (some [("RESPONSIBLE_ID", PyVal.int 999)])) =
        some [("RESPONSIBLE_ID", PyVal.int 10)] := by
  refine ⟨rfl, rfl, ?_⟩
  intro h
  rw [show filterOf (get_tasks_params (some "10")
      (some [("RESPONSIBLE_ID", PyVal.int 999)])) =
      some [("RESPONSIBLE_ID", PyVal.int 999)] from rfl] at h
  simp at h

/-- C3 (amended): `get_deals` and `get_leads` always pin the scope key
`ASSIGNED_BY_ID` to the webhook user id (a caller binding for it is
overwritten) while merging every other caller key in unchanged;
`get_tasks` installs the `RESPONSIBLE_ID` scope binding first and then
merges the caller filter with `dict.update`, so every caller key —
`RESPONSIBLE_ID` itself included — wins over the scope binding, which
survives only when the caller filter does not name it. -/
theorem listing_scope_merge :
    (∀ (u : String) (caller : Option (List (String × PyVal))), u ≠ "" →
      dget (filterOfD (get_deals_params (some u) caller)) "ASSIGNED_BY_ID" =
        some (PyVal.str u)) ∧
    (∀ (u : String) (caller : List (String × PyVal)) (k : String) (v : PyVal),
      u ≠ "" → k ≠ "ASSIGNED_BY_ID" → dget caller k = some v →
      dget (filterOfD (get_deals_params (some u) (some caller))) k = some v) ∧
    (∀ (u : String) (caller : Option (List (String × PyVal))), u ≠ "" →
      dget (filterOfD (get_leads_params (some u) caller)) "ASSIGNED_BY_ID" =
        some (PyVal.str u)) ∧
    (∀ (u : String) (caller : List (String × PyVal)) (k : String) (v : PyVal),
      u ≠ "" → k ≠ "ASSIGNED_BY_ID" → dget caller k = some v →
      dget (filterOfD (get_leads_params (some u) (some caller))) k = some v) ∧
    (∀ (u : String) (caller : List (String × PyVal)), u ≠ "" →
      "RESPONSIBLE_ID" ∉ caller.map Prod.fst →
      dget (filterOfD (get_tasks_params (some u) (some caller))) "RESPONSIBLE_ID" =
        some (taskScopeVal u)) ∧
    (∀ (u : String) (caller : List (String × PyVal)) (k : String) (v : PyVal),
      u ≠ "" → (caller.map Prod.fst).Nodup → (k, v) ∈ caller →
      dget (filterOfD (get_tasks_params (some u) (some caller))) k = some v) := by
  refine ⟨?_, ?_, ?_, ?_, ?_, ?_⟩
  · intro u caller hu
    rw [filterOfD, get_deals_filter_eq u caller hu]
    simp [dget_dset_self]
  · intro u caller k v hu hk hc
    rw [filterOfD, get_deals_filter_eq u (some caller) hu]
    simpa [dget_dset_ne _ _ _ _ hk] using hc
  · intro u caller hu
    rw [filterOfD, get_leads_filter_eq u caller hu]
    simp [dget_dset_self]
  · intro u caller k v hu hk hc
    rw [filterOfD, get_leads_filter_eq u (some caller) hu]
    simpa [dget_dset_ne _ _ _ _ hk] using hc
  · intro u caller hu hns
    by_cases hc : caller = []
    · subst hc
      simp [get_tasks_params, if_pos hu, filterOfD, filterOf, dget_dset_self, dget]
    · rw [filterOfD, get_tasks_filter_eq u caller hu hc]
      simp [dget_dupdate_not_mem _ _ _ hns, dget]
  · intro u caller k v hu hnd hmem
    have hc : caller ≠ [] := by
      intro hnil
      subst hnil
      simp at hmem
    rw [filterOfD, get_tasks_filter_eq u caller hu hc]
    simp [dget_dupdate_mem caller _ k v hnd hmem]

/-- Witness for the scope-merge theorem at concrete inputs: deals keep
the webhook scope, a caller task filter without `RESPONSIBLE_ID` keeps
the scope, a caller task filter with it overrides the scope. -/
theorem listing_scope_merge_witness :
    dget (filterOfD (get_deals_params (some "10")
        (some [("STAGE_ID", PyVal.str "C1")]))) "ASSIGNED_BY_ID" =
      some (PyVal.str "10") ∧
    dget (filterOfD (get_tasks_params (some "10")
        (some [("STATUS", PyVal.int 5)]))) "RESPONSIBLE_ID" =
      some (taskScopeVal "10") ∧
    dget (filterOfD (get_tasks_params (some "10")
        (some [("RESPONSIBLE_ID", PyVal.int 999)]))) "RESPONSIBLE_ID" =
      some (PyVal.int 999) :=
  ⟨listing_scope_merge.1 "10" (some [("STAGE_ID", PyVal.str "C1")]) (by decide),
   listing_scope_merge.2.2.2.2.1 "10" [("STATUS", PyVal.int 5)] (by decide) (by simp),
   listing_scope_merge.2.2.2.2.2 "10" [("RESPONSIBLE_ID", PyVal.int 999)]
     "RESPONSIBLE_ID" (PyVal.int 999) (by decide) (by simp) (by simp)⟩

/-! ## C4: failure conditions of the webhook parser -/

/-- C4 counterexample: `parse_webhook_url` succeeds on a URL whose host
has no `.bitrix24.` marker — the vendor-marker check lives in
`validate_webhook_url` (which returns false), not in `parse`. -/
theorem parse_accepts_foreign_host :
    parse_webhook_url ⟨"https", "example.com", "/rest/1/tok"⟩ =
      Except.ok ⟨"https://example.com/rest/1/tok", "https://example.com", "1", "tok"⟩ ∧
    occursIn ".bitrix24." "https://example.com" = false ∧
    validate_webhook_url ⟨"https", "example.com", "/rest/1/tok"⟩ = false :=
  ⟨rfl, by decide, by decide⟩

/-- C4 (amended): `parse_webhook_url` fails exactly when the path has
fewer than three segments or its first segment is not the literal
`rest`; extra trailing segments are ignored; the vendor-marker check on
the host is performed by `validate_webhook_url`, which returns false
(rather than `parse` failing) when the marker is absent. -/
theorem parse_webhook_url_failure_shape :
    (∀ u : UrlParts,
      (webhookPathParts u).length < 3 ∨ (webhookPathParts u).head? ≠ some "rest" →
      parse_webhook_url u = Except.error malformedWebhookMsg) ∧
    (∀ (u : UrlParts) (p1 p2 : String) (rest : List String),
      webhookPathParts u = "rest" :: p1 :: p2 :: rest →
      parse_webhook_url u = Except.ok
        ⟨u.scheme ++ "://" ++ u.netloc ++ dropTrailChar '/' u.path,
         u.scheme ++ "://" ++ u.netloc, p1, p2⟩) ∧
    (∀ u : UrlParts,
      occursIn ".bitrix24." (u.scheme ++ "://" ++ u.netloc) = false →
      validate_webhook_url u = false) := by
  refine ⟨?_, ?_, ?_⟩
  · intro u h
    unfold parse_webhook_url
    rcases hw : webhookPathParts u with _ | ⟨p0, _ | ⟨p1, _ | ⟨p2, rest⟩⟩⟩
    · rfl
    · rfl
    · rfl
    · rw [hw] at h
      have hp0 : p0 ≠ "rest" := by
        rcases h with hlen | hhead
        · simp at hlen
          omega
        · simpa using hhead
      simp [hp0]
  · intro u p1 p2 rest hw
    unfold parse_webhook_url
    rw [hw]
    simp
  · intro u h
    unfold validate_webhook_url
    unfold parse_webhook_url
    rcases hw : webhookPathParts u with _ | ⟨p0, _ | ⟨p1, _ | ⟨p2, rest⟩⟩⟩ <;> simp
    by_cases hp0 : p0 = "rest"
    · subst hp0
      simp [h]
    · simp [hp0]

/-- Witness for the parser-failure theorem at concrete inputs: a path
with too few segments fails, one with the wrong first segment fails,
and validation rejects a foreign host. -/
theorem parse_webhook_url_failure_shape_witness :
    parse_webhook_url ⟨"https", "b24-x.bitrix24.ru", "/rest/10"⟩ =
      Except.error malformedWebhookMsg ∧
    parse_webhook_url ⟨"https", "b24-x.bitrix24.ru", "/other/10/tok"⟩ =
      Except.error malformedWebhookMsg ∧
    parse_webhook_url ⟨"https", "b24-x.bitrix24.ru", "/rest/10/tok/extra/"⟩ =
      Except.ok ⟨"https://b24-x.bitrix24.ru/rest/10/tok/extra",
                 "https://b24-x.bitrix24.ru", "10", "tok"⟩ ∧
    validate_webhook_url ⟨"https", "corp.example.org", "/rest/10/tok"⟩ = false :=
  ⟨parse_webhook_url_failure_shape.1 ⟨"https", "b24-x.bitrix24.ru", "/rest/10"⟩
     (by decide),
   parse_webhook_url_failure_shape.1 ⟨"https", "b24-x.bitrix24.ru", "/other/10/tok"⟩
     (by decide),
   parse_webhook_url_failure_shape.2.1 ⟨"https", "b24-x.bitrix24.ru", "/rest/10/tok/extra/"⟩
     "10" "tok" ["extra"] (by decide),
   parse_webhook_url_failure_shape.2.2 ⟨"https", "corp.example.org", "/rest/10/tok"⟩
     (by decide)⟩

/-! ## C5: shape of the log masking -/

/-- C5 counterexample: a long string *inside a sequence* is masked by
the inner `mask_value` rule (`first4***last4`), not by the claimed
`first10...last10` truncation; the claim's "applies these rules
recursively to ... sequences" fails on `{"note": ["a"*30]}`. -/
theorem sequence_string_masking_differs :
    mask_sensitive_data
        [("note", PyVal.list [PyVal.str "aaaaaaaaaaaaaaaaaaaaaaaaaaaaaa"])] =
      [("note", PyVal.list [PyVal.str "aaaa***aaaa"])] ∧
    ¬ mask_sensitive_data
        [("note", PyVal.list [PyVal.str "aaaaaaaaaaaaaaaaaaaaaaaaaaaaaa"])] =
      [("note", PyVal.list [PyVal.str "aaaaaaaaaa...aaaaaaaaaa"])] ∧
    mask_sensitive_data [("token", PyVal.dict [("x", PyVal.int 1)])] =
      [("token", PyVal.dict [("x", PyVal.int 1)])] := by
  refine ⟨rfl, ?_, rfl⟩
  intro h
  rw [show mask_sensitive_data
        [("note", PyVal.list [PyVal.str "aaaaaaaaaaaaaaaaaaaaaaaaaaaaaa"])] =
      [("note", PyVal.list [PyVal.str "aaaa***aaaa"])] from rfl] at h
  simp at h

/-- C5 (amended): the sensitive-name replacement and the
`first10...last10` truncation apply only to values that are not dicts
or lists: dict values always recurse (even under a sensitive name),
list values are masked element-wise with dict elements recursing and
every other element going through `mask_value` (strings longer than
eight characters become `first4***last4`, numbers pass through,
anything else becomes `***`); the spec's top-level fixture
`{"auth": "secret123456", "note": "a"*30}` masks as claimed. -/
theorem mask_sensitive_data_shape :
    mask_sensitive_data
        [("auth", PyVal.str "secret123456"),
         ("note", PyVal.str "aaaaaaaaaaaaaaaaaaaaaaaaaaaaaa")] =
      [("auth", PyVal.str "***"),
       ("note", PyVal.str "aaaaaaaaaa...aaaaaaaaaa")] ∧
    (∀ d : List (String × PyVal),
      mask_dict d = d.map (fun p => (p.1, mask_entry_value p.1 p.2))) ∧
    (∀ (k : String) (s : String), isSensitiveName k = true →
      mask_entry_value k (PyVal.str s) = PyVal.str "***") ∧
    (∀ (k : String) (n : Int), isSensitiveName k = true →
      mask_entry_value k (PyVal.int n) = PyVal.str "***") ∧
    (∀ (k : String) (s : String), isSensitiveName k = false → s.length > 20 →
      mask_entry_value k (PyVal.str s) =
        PyVal.str (strTake s 10 ++ "..." ++ strDrop s (s.length - 10))) ∧
    (∀ (k : String) (d : List (String × PyVal)),
      mask_entry_value k (PyVal.dict d) = PyVal.dict (mask_dict d)) ∧
    (∀ (k : String) (l : List PyVal),
      mask_entry_value k (PyVal.list l) = PyVal.list (mask_items l)) ∧
    (∀ s : String, s.length > 8 →
      mask_value (PyVal.str s) =
        PyVal.str (strTake s 4 ++ "***" ++ strDrop s (s.length - 4))) ∧
    (∀ s : String, ¬ s.length > 8 → mask_value (PyVal.str s) = PyVal.str "***") := by
  refine ⟨rfl, ?_, ?_, ?_, ?_, ?_, ?_, ?_, ?_⟩
  · intro d
    induction d with
    | nil => rfl
    | cons hd tl ih =>
      obtain ⟨k, v⟩ := hd
      simp [mask_dict, ih]
  · intro k s h
    simp [mask_entry_value, h]
  · intro k n h
    simp [mask_entry_value, h]
  · intro k s hk hs
    simp [mask_entry_value, hk, hs]
  · intro k d
    rfl
  · intro k l
    rfl
  · intro s h
    simp [mask_value, h]
  · intro s h
    simp [mask_value, h]

/-- Witness for the masking-shape theorem at concrete inputs. -/
theorem mask_sensitive_data_shape_witness :
    mask_entry_value "access_token" (PyVal.str "t") = PyVal.str "***" ∧
    mask_entry_value "note"
        (PyVal.str "aaaaaaaaaaaaaaaaaaaaaaaaaaaaaa") =
      PyVal.str (strTake "aaaaaaaaaaaaaaaaaaaaaaaaaaaaaa" 10 ++ "..." ++
        strDrop "aaaaaaaaaaaaaaaaaaaaaaaaaaaaaa" 20) ∧
    mask_value (PyVal.str "secret123") =
      PyVal.str (strTake "secret123" 4 ++ "***" ++ strDrop "secret123" 5) :=
  ⟨mask_sensitive_data_shape.2.2.1 "access_token" "t" (by decide),
   mask_sensitive_data_shape.2.2.2.2.1 "note" "aaaaaaaaaaaaaaaaaaaaaaaaaaaaaa"
     (by decide) (by decide),
   mask_sensitive_data_shape.2.2.2.2.2.2.2.1 "secret123" (by decide)⟩

/-! ## C6: the masking never mutates the params object graph -/

/-- Allocation bumps the next-address counter by one. -/
theorem alloc_snd_next (σ : Store) (o : HObj) : ((σ.alloc o).2).next = σ.next + 1 := rfl

/-- Allocation does not touch existing addresses. -/
theorem alloc_snd_mem_lt (σ : Store) (o : HObj) (i : Nat) (h : i < σ.next) :
    ((σ.alloc o).2).mem i = σ.mem i := by
  have hne : ¬ i = σ.next := by omega
  simp [Store.alloc, hne]

/-- A store write keeps the next-address counter. -/
theorem setEntry_next (σ : Store) (a : Nat) (k : String) (v : HVal) :
    (σ.setEntry a k v).next = σ.next := rfl

/-- A store write does not touch other addresses. -/
theorem setEntry_mem_ne (σ : Store) (a : Nat) (k : String) (v : HVal) (i : Nat)
    (h : i ≠ a) : (σ.setEntry a k v).mem i = σ.mem i := by
  simp [Store.setEntry, h]

/-- Allocation returns the old next-address as the fresh address. -/
theorem alloc_fst (σ : Store) (o : HObj) : (σ.alloc o).1 = σ.next := rfl

/-- A store is frame-preserved over `σ` when its next-counter has not
shrunk and every address below `σ.next` holds the same object. -/
def FramedOver (σ σ2 : Store) : Prop :=
  σ.next ≤ σ2.next ∧ ∀ i, i < σ.next → σ2.mem i = σ.mem i

/-- Frame preservation is reflexive. -/
theorem framedOver_refl (σ : Store) : FramedOver σ σ :=
  ⟨le_refl _, fun _ _ => rfl⟩

/-- Frame preservation chains. -/
theorem framedOver_trans (σ σ2 σ3 : Store) (h1 : FramedOver σ σ2)
    (h2 : FramedOver σ2 σ3) : FramedOver σ σ3 := by
  refine ⟨le_trans h1.1 h2.1, ?_⟩
  intro i hi
  rw [h2.2 i (lt_of_lt_of_le hi h1.1), h1.2 i hi]

/-- Allocation preserves the frame. -/
theorem framedOver_alloc (σ : Store) (o : HObj) : FramedOver σ (σ.alloc o).2 := by
  refine ⟨by rw [alloc_snd_next]; omega, ?_⟩
  intro i hi
  exact alloc_snd_mem_lt σ o i hi

/-- A write to an address at or above `σ.next` preserves the frame. -/
theorem framedOver_setEntry (σ σ2 : Store) (m : Nat) (k : String) (v : HVal)
    (h : FramedOver σ σ2) (hm : σ.next ≤ m) : FramedOver σ (σ2.setEntry m k v) := by
  refine ⟨by rw [setEntry_next]; exact h.1, ?_⟩
  intro i hi
  rw [setEntry_mem_ne _ _ _ _ _ (by omega), h.2 i hi]

/-- Frame property of the element-wise list masking, assuming it for
`maskDictH` at the same fuel. -/
theorem maskItemListH_frame (fuel : Nat)
    (Hdict : ∀ (a : Nat) (σ : Store), FramedOver σ (maskDictH fuel a σ).2) :
    ∀ (items : List HVal) (σ : Store), FramedOver σ (maskItemListH fuel items σ).2 := by
  have Hstep : ∀ (v : HVal) (σ : Store), FramedOver σ (itemStepH fuel v σ).2 := by
    intro v σ
    cases v with
    | ref a =>
      cases hm : σ.mem a with
      | none => simp only [itemStepH, hm]; exact framedOver_refl σ
      | some obj =>
        cases obj with
        | dictO es => simp only [itemStepH, hm]; exact Hdict a σ
        | listO es => simp only [itemStepH, hm]; exact framedOver_refl σ
    | str s => simp only [itemStepH]; exact framedOver_refl σ
    | int n => simp only [itemStepH]; exact framedOver_refl σ
    | float q => simp only [itemStepH]; exact framedOver_refl σ
    | bool b => simp only [itemStepH]; exact framedOver_refl σ
    | none => simp only [itemStepH]; exact framedOver_refl σ
  intro items
  induction items with
  | nil =>
    intro σ
    simp only [maskItemListH]
    exact framedOver_refl σ
  | cons v rest ih =>
    intro σ
    simp only [maskItemListH]
    exact framedOver_trans _ _ _ (Hstep v σ) (ih ((itemStepH fuel v σ).2))

/-- Frame property of the list-object masking. -/
theorem maskItemsH_frame (fuel : Nat)
    (Hil : ∀ (items : List HVal) (σ : Store),
      FramedOver σ (maskItemListH fuel items σ).2) :
    ∀ (items : List HVal) (σ : Store), FramedOver σ (maskItemsH fuel items σ).2 := by
  intro items σ
  simp only [maskItemsH]
  exact framedOver_trans _ _ _ (Hil items σ) (framedOver_alloc _ _)

/-- Frame property of the binding loop: writes only hit the fresh dict
at `m`, so any store framed so far stays framed provided `m` is a
fresh address. -/
theorem maskEntriesH_frame (fuel : Nat)
    (Hdict : ∀ (a : Nat) (σ : Store), FramedOver σ (maskDictH fuel a σ).2)
    (Hit : ∀ (items : List HVal) (σ : Store), FramedOver σ (maskItemsH fuel items σ).2) :
    ∀ (es : List (String × HVal)) (m : Nat) (σ0 σ : Store),
      FramedOver σ0 σ → σ0.next ≤ m → FramedOver σ0 (maskEntriesH fuel es m σ) := by
  have Hstep : ∀ (k : String) (v : HVal) (σ : Store),
      FramedOver σ (entryStepH fuel k v σ).2 := by
    intro k v σ
    cases v with
    | ref a =>
      cases hm : σ.mem a with
      | none => simp only [entryStepH, hm]; exact framedOver_refl σ
      | some obj =>
        cases obj with
        | dictO es => simp only [entryStepH, hm]; exact Hdict a σ
        | listO items => simp only [entryStepH, hm]; exact Hit items σ
    | str s => simp only [entryStepH]; exact framedOver_refl σ
    | int n => simp only [entryStepH]; exact framedOver_refl σ
    | float q => simp only [entryStepH]; exact framedOver_refl σ
    | bool b => simp only [entryStepH]; exact framedOver_refl σ
    | none => simp only [entryStepH]; exact framedOver_refl σ
  intro es
  induction es with
  | nil =>
    intro m σ0 σ h hm
    simpa only [maskEntriesH] using h
  | cons hd rest ih =>
    intro m σ0 σ h hm
    obtain ⟨k, v⟩ := hd
    simp only [maskEntriesH]
    refine ih m σ0 _ ?_ hm
    exact framedOver_setEntry σ0 _ m k _
      (framedOver_trans _ _ _ h (Hstep k v σ)) hm

/-- Frame property of the recursive dict masking: every pre-existing
address keeps its object. -/
theorem maskDictH_frame :
    ∀ (fuel a : Nat) (σ : Store), FramedOver σ (maskDictH fuel a σ).2 := by
  intro fuel
  induction fuel with
  | zero =>
    intro a σ
    simp only [maskDictH]
    exact framedOver_refl σ
  | succ n ih =>
    have Hil := maskItemListH_frame n ih
    have Hit := maskItemsH_frame n Hil
    have Hen := maskEntriesH_frame n ih Hit
    intro a σ
    cases hm : σ.mem a with
    | none =>
      simp only [maskDictH, hm]
      exact framedOver_refl σ
    | some obj =>
      cases obj with
      | dictO es =>
        simp only [maskDictH, hm]
        refine Hen es ((σ.alloc (HObj.dictO [])).1) σ _ (framedOver_alloc _ _) ?_
        rw [alloc_fst]
      | listO es =>
        simp only [maskDictH, hm]
        exact framedOver_refl σ

/-- Frame property of `_mask_sensitive_data` in the heap model. -/
theorem mask_sensitive_dataH_frame (fuel a : Nat) (σ : Store) :
    FramedOver σ (mask_sensitive_dataH fuel a σ).2 := by
  cases hm : σ.mem a with
  | none =>
    simp only [mask_sensitive_dataH, hm]
    exact framedOver_refl σ
  | some obj =>
    cases obj with
    | dictO es =>
      cases es with
      | nil =>
        simp only [mask_sensitive_dataH, hm]
        exact framedOver_refl σ
      | cons e rest =>
        simp only [mask_sensitive_dataH, hm]
        exact framedOver_trans _ _ _ (framedOver_alloc _ _) (maskDictH_frame fuel _ _)
    | listO es =>
      simp only [mask_sensitive_dataH, hm]
      exact framedOver_refl σ

/-- C6: the request always posts the original params object, and the
masking pass allocates only fresh objects — every address that existed
before the call still maps to the same object afterwards, so the
outbound payload (the whole object graph reachable from `a`) is
unchanged and only the logged copy differs. -/
theorem make_request_never_mutates_params :
    ∀ (fuel a : Nat) (σ : Store),
      (make_request_params fuel a σ).sentParams = a ∧
      σ.next ≤ (make_request_params fuel a σ).store.next ∧
      ∀ i, i < σ.next → (make_request_params fuel a σ).store.mem i = σ.mem i := by
  intro fuel a σ
  have hfr : FramedOver σ (make_request_params fuel a σ).store := by
    cases hm : σ.mem a with
    | none =>
      simp only [make_request_params, hm]
      exact framedOver_refl σ
    | some obj =>
      cases obj with
      | dictO es =>
        cases es with
        | nil =>
          simp only [make_request_params, hm]
          exact framedOver_refl σ
        | cons e rest =>
          simp only [make_request_params, hm]
          exact mask_sensitive_dataH_frame fuel a σ
      | listO es =>
        simp only [make_request_params, hm]
        exact framedOver_refl σ
  have hsent : (make_request_params fuel a σ).sentParams = a := by
    cases hm : σ.mem a with
    | none => simp only [make_request_params, hm]
    | some obj =>
      cases obj with
      | dictO es =>
        cases es with
        | nil => simp only [make_request_params, hm]
        | cons e rest => simp only [make_request_params, hm]
      | listO es => simp only [make_request_params, hm]
  exact ⟨hsent, hfr.1, hfr.2⟩

/-- A one-object store holding sensitive params at address 0. -/
def c6Store : Store :=
  ⟨1, fun x => if x = 0 then some (HObj.dictO [("auth", HVal.str "supersecret")]) else Option.none⟩

/-- Witness for the no-mutation theorem: on a concrete store the call
posts address 0 and address 0 still holds the original params. -/
theorem make_request_never_mutates_params_witness :
    (make_request_params 2 0 c6Store).sentParams = 0 ∧
    (make_request_params 2 0 c6Store).store.mem 0 = c6Store.mem 0 :=
  ⟨(make_request_never_mutates_params 2 0 c6Store).1,
   (make_request_never_mutates_params 2 0 c6Store).2.2 0 (by decide)⟩

/-! ## C7: deal summation -/

/-- C7: the summation loop of `calculate_deals_sum` adds exactly the
spec's per-deal amount — the opportunity field when it is numeric
(bools counting as Python ints), and 0 for non-numeric or missing
amounts — and on the spec's fixture
`[{OPPORTUNITY: 100}, {OPPORTUNITY: null}, {OPPORTUNITY: "bad"}]`
it returns 100. -/
theorem calculate_deals_sum_spec :
    (∀ deals : List (List (String × PyVal)),
      calculate_deals_sum deals = (deals.map spec_opportunity_amount).sum) ∧
    calculate_deals_sum
      [[("OPPORTUNITY", PyVal.int 100)],
       [("OPPORTUNITY", PyVal.none)],
       [("OPPORTUNITY", PyVal.str "bad")]] = 100 := by
  have hstep : ∀ (total : Rat) (deal : List (String × PyVal)),
      (let raw := (dget deal "OPPORTUNITY").getD PyVal.none
       let amount := if pyTruthy raw then raw else PyVal.int 0
       match amount with
       | PyVal.int n => total + (n : Rat)
       | PyVal.float q => total + q
       | PyVal.bool b => total + (if b then (1 : Rat) else 0)
       | _ => total) = total + spec_opportunity_amount deal := by
    intro total deal
    rcases hv : dget deal "OPPORTUNITY" with _ | v
    · simp [spec_opportunity_amount, hv, pyTruthy]
    · cases v with
      | str s =>
        by_cases hs : s = "" <;>
          simp [spec_opportunity_amount, hv, pyTruthy, hs]
      | int n =>
        by_cases hn : n = 0 <;>
          simp [spec_opportunity_amount, hv, pyTruthy, hn]
      | float q =>
        by_cases hq : q = 0 <;>
          simp [spec_opportunity_amount, hv, pyTruthy, hq]
      | bool b =>
        cases b <;> simp [spec_opportunity_amount, hv, pyTruthy]
      | none => simp [spec_opportunity_amount, hv, pyTruthy]
      | dict d =>
        by_cases hd : d.isEmpty <;>
          simp [spec_opportunity_amount, hv, pyTruthy, hd]
      | list l =>
        by_cases hl : l.isEmpty <;>
          simp [spec_opportunity_amount, hv, pyTruthy, hl]
  have hfold : ∀ (deals : List (List (String × PyVal))) (c : Rat),
      deals.foldl
        (fun total deal =>
          let raw := (dget deal "OPPORTUNITY").getD PyVal.none
          let amount := if pyTruthy raw then raw else PyVal.int 0
          match amount with
          | PyVal.int n => total + (n : Rat)
          | PyVal.float q => total + q
          | PyVal.bool b => total + (if b then (1 : Rat) else 0)
          | _ => total) c = c + (deals.map spec_opportunity_amount).sum := by
    intro deals
    induction deals with
    | nil => intro c; simp
    | cons hd tl ih =>
      intro c
      simp only [List.foldl_cons, List.map_cons, List.sum_cons]
      rw [ih, hstep]
      ring
  constructor
  · intro deals
    unfold calculate_deals_sum
    rw [hfold]
    ring
  · unfold calculate_deals_sum
    rw [hfold]
    norm_num [spec_opportunity_amount, dget]

/-! ## C8: the terminal steps and the missing linkage re-check -/

/-- C8 counterexample: running the lead-creation terminal step with no
webhook on file does clear the session, but the failure is the caught
`TypeError` surfaced as a generic error — the NotLinked prompt the
flow-start guard would send is never produced. -/
theorem terminal_step_not_linked_generic :
    (process_lead_title [] "T" Option.none (Except.ok (PyVal.dict []))).cleared = true ∧
    (process_lead_title [] "T" Option.none (Except.ok (PyVal.dict []))).replies =
      [Reply.genericError "TypeError: NoneType object is not subscriptable"] ∧
    Reply.notLinked ∉ (process_lead_title [] "T" Option.none (Except.ok (PyVal.dict []))).replies :=
  ⟨rfl, rfl, by decide⟩

/-- C8 (amended): the terminal handlers fetch the webhook record again
but perform no linkage re-check; when no webhook is on file, the
subscript of the `None` record raises inside the `try` block, the user
receives the generic error reply (not the NotLinked prompt that the
flow-start guard produces), no CRM call is issued, and the session is
cleared. -/
theorem terminal_steps_without_webhook :
    (∀ (ud : List (String × PyVal)) (text : String) (cres : Except String PyVal),
      process_lead_title ud text Option.none cres =
        ⟨[Reply.genericError "TypeError: NoneType object is not subscriptable"], true, []⟩) ∧
    (∀ (ud : List (String × PyVal)) (text : String) (cres : Except String PyVal),
      process_deal_contact ud text Option.none cres =
        ⟨[Reply.genericError "TypeError: NoneType object is not subscriptable"], true, []⟩) ∧
    (∀ (ud : List (String × PyVal)) (text : String) (cres : Except String PyVal),
      process_task_deadline ud text Option.none cres =
        ⟨[Reply.genericError "TypeError: NoneType object is not subscriptable"], true, []⟩) ∧
    check_bitrix_connected Option.none = false ∧
    flow_start_guard Option.none = some Reply.notLinked := by
  refine ⟨?_, ?_, ?_, rfl, rfl⟩
  · intro ud text cres
    rfl
  · intro ud text cres
    rfl
  · intro ud text cres
    rfl

/-! ## C9: the comment field bypasses the update path -/

/-- C9: in each of the three edit flows, selecting the `COMMENTS` field
makes the handler issue exactly one immediate add-comment call for its
entity and never the generic update call. -/
theorem comment_field_short_circuits :
    ∀ (eid text : String) (w : Option (List (String × PyVal)))
      (apiRes : Except String PyVal),
      eid ≠ "" →
      (∃ args, clientArgs w = Except.ok args) →
      (process_deal_value eid "COMMENTS" text w apiRes).calls =
        [ApiCall.addComment "deal" eid (pyStrip text)] ∧
      (process_task_value eid "COMMENTS" text w apiRes).calls =
        [ApiCall.addComment "task" eid (pyStrip text)] ∧
      (process_lead_value eid "COMMENTS" text w apiRes).calls =
        [ApiCall.addComment "lead" eid (pyStrip text)] ∧
      (∀ c ∈ (process_deal_value eid "COMMENTS" text w apiRes).calls,
        isUpdateCall c = false) ∧
      (∀ c ∈ (process_task_value eid "COMMENTS" text w apiRes).calls,
        isUpdateCall c = false) ∧
      (∀ c ∈ (process_lead_value eid "COMMENTS" text w apiRes).calls,
        isUpdateCall c = false) := by
  intro eid text w apiRes he hw
  obtain ⟨args, hargs⟩ := hw
  have hcomment : ∀ (entity : String),
      (commentOutcome entity eid (pyStrip text) apiRes).calls =
        [ApiCall.addComment entity eid (pyStrip text)] := by
    intro entity
    cases apiRes with
    | error e => rfl
    | ok res =>
      simp only [commentOutcome]
      split <;> rfl
  have hdeal : (process_deal_value eid "COMMENTS" text w apiRes).calls =
      [ApiCall.addComment "deal" eid (pyStrip text)] := by
    simp only [process_deal_value, hargs]
    rw [if_neg (by simp [he])]
    simp only [reduceIte]
    exact hcomment "deal"
  have htask : (process_task_value eid "COMMENTS" text w apiRes).calls =
      [ApiCall.addComment "task" eid (pyStrip text)] := by
    simp only [process_task_value, hargs]
    rw [if_neg (by simp [he])]
    simp only [reduceIte]
    exact hcomment "task"
  have hlead : (process_lead_value eid "COMMENTS" text w apiRes).calls =
      [ApiCall.addComment "lead" eid (pyStrip text)] := by
    simp only [process_lead_value, hargs]
    rw [if_neg (by simp [he])]
    simp only [reduceIte]
    exact hcomment "lead"
  refine ⟨hdeal, htask, hlead, ?_, ?_, ?_⟩
  · intro c hc
    rw [hdeal] at hc
    simp at hc
    subst hc
    rfl
  · intro c hc
    rw [htask] at hc
    simp at hc
    subst hc
    rfl
  · intro c hc
    rw [hlead] at hc
    simp at hc
    subst hc
    rfl

/-- Witness for the comment short-circuit at concrete inputs. -/
theorem comment_field_short_circuits_witness :
    (process_deal_value "5" "COMMENTS" "hello there" (some
        [("full_webhook_url", PyVal.str "https://x.bitrix24.ru/rest/10/tok"),
         ("user_id", PyVal.str "10")])
      (Except.ok (PyVal.dict [("result", PyVal.bool true)]))).calls =
      [ApiCall.addComment "deal" "5" (pyStrip "hello there")] :=
  (comment_field_short_circuits "5" "hello there"
    (some [("full_webhook_url", PyVal.str "https://x.bitrix24.ru/rest/10/tok"),
           ("user_id", PyVal.str "10")])
    (Except.ok (PyVal.dict [("result", PyVal.bool true)]))
    (by decide)
    ⟨(PyVal.str "https://x.bitrix24.ru/rest/10/tok", PyVal.str "10"), rfl⟩).1

/-! ## C10: error handling of get_tasks versus get_deals/get_leads -/

/-- C10: `get_tasks` never propagates a failure — a failing request (or
a normalization failure on the response) is converted into the dict
`{error: ..., tasks: []}` and returned successfully — while `get_deals`
and `get_leads` pass the failure of `_make_request` through unhandled. -/
theorem get_tasks_swallows_errors :
    (∀ e : String, get_tasks_result (Except.error e) = Except.ok (tasksErrorDict e)) ∧
    (∀ (data : PyVal) (m : String), get_tasks_body data = Except.error m →
      get_tasks_result (Except.ok data) = Except.ok (tasksErrorDict m)) ∧
    (∀ req : Except String PyVal, ∃ v, get_tasks_result req = Except.ok v) ∧
    (∀ e : String, get_deals_result (Except.error e) = Except.error e) ∧
    (∀ e : String, get_leads_result (Except.error e) = Except.error e) := by
  refine ⟨fun e => rfl, ?_, ?_, fun e => rfl, fun e => rfl⟩
  · intro data m h
    simp only [get_tasks_result, Except.bind, h]
  · intro req
    exact ⟨_, rfl⟩

/-- Witness for the error-swallowing theorem: a failed request and a
non-dict response body both produce the error dict. -/
theorem get_tasks_swallows_errors_witness :
    get_tasks_result (Except.error "Network error: boom") =
      Except.ok (tasksErrorDict "Network error: boom") ∧
    get_tasks_result (Except.ok (PyVal.int 0)) =
      Except.ok (tasksErrorDict "TypeError: argument of type is not iterable") :=
  ⟨get_tasks_swallows_errors.1 "Network error: boom",
   get_tasks_swallows_errors.2.1 (PyVal.int 0)
     "TypeError: argument of type is not iterable" rfl⟩
